import Mathlib

/-!
Verification of the `fwd` SSE relay (RoryQ/fwd, `main.go`).

Strings and byte slices from the Go source are modelled as `List Char`
(the inputs of interest are ASCII, where Go's byte indexing and the
character indexing here coincide).  Go's `line[n:]` slice expression
panics when `n > len(line)`; the model makes that outcome explicit with
a dedicated `crash` constructor instead of silently totalising.
Channels are modelled by collecting the sent values in order; the
per-goroutine code is embedded as sequential functions over explicit
inputs (response status, content type, the list of scanned lines, the
position at which a stop signal becomes visible).
-/

/-- Character-list strings, mirroring Go `[]byte` / `string` values. -/
abbrev Str := List Char

/-- Model of the `SSEvent` struct from main.go: `Id`, `Name` strings and
`Data` bytes. -/
structure SSEvent where
  Id : Str
  Name : Str
  Data : Str
deriving Repr, DecidableEq

/-- The zero value `SSEvent{}` of Go. -/
def SSEvent.zero : SSEvent := ⟨[], [], []⟩

/-- Mutable state threaded through `parseSend`: the draft event `*ev`
and the data accumulator `*buf` (a `bytes.Buffer`). -/
structure ParserState where
  ev : SSEvent
  buf : Str
deriving Repr, DecidableEq

/-- Initial parser state of `Subscription.Serve`: `var buf bytes.Buffer`
and `ev := SSEvent{}`. -/
def ParserState.init : ParserState := ⟨SSEvent.zero, []⟩

/-- Outcome of one `parseSend` call on one line.
`ok st emitted` : normal return, yielding the new state and optionally
one event sent on `s.Events`.  `err line len` : the `default:` branch
returning `fmt.Errorf` carrying the offending line and its length.
`crash` : a Go runtime panic from an out-of-range slice (`line[4:]`,
`line[7:]`, `line[6:]` with a too-short line). -/
inductive ParseOutcome where
  | ok (st : ParserState) (emitted : Option SSEvent)
  | err (line : Str) (len : Nat)
  | crash
deriving Repr, DecidableEq

def idPrefix : Str := "id:".data
def eventPrefix : Str := "event:".data
def dataPrefix : Str := "data:".data

/-- Model of `Subscription.parseSend` from main.go, one line at a time.

```go
switch {
case bytes.HasPrefix(line, []byte("id:")):    ev.Id = string(line[4:])
case bytes.HasPrefix(line, []byte("event:")): ev.Name = string(line[7:])
case bytes.HasPrefix(line, []byte("data:")):  buf.Write(line[6:])
case len(line) == 0:
    ev.Data = buf.Bytes(); buf.Reset(); s.Events <- *ev; ev = &SSEvent{}
default:
    return fmt.Errorf("... len:%d\n%s", len(line), line)
}
```

Go semantics carried over faithfully: `line[4:]` panics when
`4 > len(line)` (likewise 7 and 6); the final `ev = &SSEvent{}`
reassigns the local pointer parameter only, so the caller's draft event
is NOT reset — only `ev.Data` (written through the pointer just before
the send) and the buffer change. -/
def parseSend (line : Str) (st : ParserState) : ParseOutcome :=
  if idPrefix.isPrefixOf line then
    if line.length < 4 then .crash
    else .ok { st with ev := { st.ev with Id := line.drop 4 } } none
  else if eventPrefix.isPrefixOf line then
    if line.length < 7 then .crash
    else .ok { st with ev := { st.ev with Name := line.drop 7 } } none
  else if dataPrefix.isPrefixOf line then
    if line.length < 6 then .crash
    else .ok { st with buf := st.buf ++ line.drop 6 } none
  else if line.length = 0 then
    .ok { ev := { st.ev with Data := st.buf }, buf := [] }
       (some { st.ev with Data := st.buf })
  else .err line line.length

/-- Lines whose prefix the `switch` in `parseSend` recognizes. -/
def recognizedLine (line : Str) : Bool :=
  idPrefix.isPrefixOf line || eventPrefix.isPrefixOf line ||
    dataPrefix.isPrefixOf line

/-- Result of running the `Serve` read loop over a list of lines
(no stop signal, no read error): the events emitted in order, and how
the loop ended. -/
inductive RunResult where
  | ok (st : ParserState) (events : List SSEvent)
  | err (events : List SSEvent) (line : Str) (len : Nat)
  | crash (events : List SSEvent)
deriving Repr, DecidableEq

/-- The `for scanner.Scan()` loop of `Subscription.Serve` restricted to
its `parseSend` calls: feed each line in order, collect emitted events,
stop at the first error (the loop does `return err`) or panic. -/
def runLines (lines : List Str) (st : ParserState) : RunResult :=
  match lines with
  | [] => .ok st []
  | l :: ls =>
    match parseSend l st with
    | .ok st2 emitted =>
      match runLines ls st2 with
      | .ok st3 evs => .ok st3 (emitted.toList ++ evs)
      | .err evs line len => .err (emitted.toList ++ evs) line len
      | .crash evs => .crash (emitted.toList ++ evs)
    | .err line len => .err [] line len
    | .crash => .crash []

/-! ## Subscription.Serve -/

/-- Model of an HTTP request as built by the Go code (method, url,
headers; the GET has no body). -/
structure HttpRequest where
  method : Str
  url : Str
  headers : List (Str × Str)
deriving Repr, DecidableEq

/-- Request construction at the top of `Subscription.Serve`:
`http.NewRequest("GET", s.url, nil)` followed by
`req.Header.Set("Accept", "text/event-stream")`. -/
def serveRequest (url : Str) : HttpRequest :=
  { method := "GET".data, url := url,
    headers := [("Accept".data, "text/event-stream".data)] }

/-- Input that the source server contributes to one `Serve` run: the
response status and content type, the lines the scanner yields, and
whether `scanner.Err()` reports a read error after the loop. -/
structure SourceResponse where
  status : Nat
  contentType : Str
  lines : List Str
  readErr : Bool
deriving Repr, DecidableEq

/-- Actions on the response body (the connection handle):
`acquire` when `client.Do` hands the body over, `release` for a
`Close()` call on it. -/
inductive BodyAction where
  | acquire
  | release
deriving Repr, DecidableEq

/-- Exit paths of `Subscription.Serve`. -/
inductive ServeExit where
  | connectError
  | httpStatusError (status : Nat)
  | contentTypeError (ct : Str)
  | stopped
  | parseError (line : Str) (len : Nat)
  | crashed
  | readError
  | eof
deriving Repr, DecidableEq

/-- One `Serve` run: the exit path taken, the events published on
`s.Events` in order, and the body actions `Serve` itself performed. -/
structure ServeResult where
  exit : ServeExit
  events : List SSEvent
  bodyActions : List BodyAction
deriving Repr, DecidableEq

/-- Whether the stop channel has a pending value when the `select` at
iteration `i` runs (`stopAt = some k` : `Stop` was called before
iteration `k` of the read loop). -/
def stopReady (stopAt : Option Nat) (i : Nat) : Bool :=
  match stopAt with
  | none => false
  | some k => decide (k ≤ i)

/-- The scanning loop of `Serve`: each iteration first polls the stop
channel (the `select` with a `default` branch), then calls `parseSend`;
a parse error or panic ends the loop, and exhausting the lines means
`scanner.Scan()` returned false. -/
def serveLoop (stopAt : Option Nat) (i : Nat) (lines : List Str)
    (st : ParserState) : ServeExit × List SSEvent :=
  match lines with
  | [] => (.eof, [])
  | l :: ls =>
    if stopReady stopAt i then (.stopped, [])
    else
      match parseSend l st with
      | .ok st2 emitted =>
        let r := serveLoop stopAt (i + 1) ls st2
        (r.1, emitted.toList ++ r.2)
      | .err line len => (.parseError line len, [])
      | .crash => (.crashed, [])

/-- Model of `Subscription.Serve`.  `connect = none` models a transport
error from `client.Do` (no body exists).  On a successful connect the
body is acquired; the status check, the content-type check, and the
scanning loop follow in the order of the source.  `Serve` itself never
performs a `release`: the only `Close()` on the subscription body in
the source is the one inside `Subscription.Stop`. -/
def subscriptionServe (connect : Option SourceResponse)
    (stopAt : Option Nat) : ServeResult :=
  match connect with
  | none => { exit := .connectError, events := [], bodyActions := [] }
  | some resp =>
    if resp.status ≠ 200 then
      { exit := .httpStatusError resp.status, events := []
        bodyActions := [.acquire] }
    else if resp.contentType ≠ "text/event-stream".data then
      { exit := .contentTypeError resp.contentType, events := []
        bodyActions := [.acquire] }
    else
      let r := serveLoop stopAt 0 resp.lines ParserState.init
      let ex := match r.1 with
        | .eof => if resp.readErr then ServeExit.readError else ServeExit.eof
        | e => e
      { exit := ex, events := r.2, bodyActions := [.acquire] }

/-- Model of `Subscription.Stop`: it sends on the stop channel and then
calls `s.bodyToClose.Close()`, one release. -/
def subscriptionStop : List BodyAction := [.release]

/-! ## Fwder -/

/-- Fields of the `Payload` struct that `Fwder.Forward` reads (the
remaining JSON fields — `Host`, `Connection`, `user-agent`,
`accept-encoding`, `Accept`, `Timestamp` — are decoded but never read
by `Forward`). -/
structure Payload where
  contentType : Str
  xRequestID : Str
  xGithubDelivery : Str
  xGithubEvent : Str
  xHubSignature : Str
  body : Str
deriving Repr, DecidableEq

/-- The zero value `Payload{}` restricted to the fields `Forward`
reads: every header value empty, empty body. -/
def Payload.zero : Payload := ⟨[], [], [], [], [], []⟩

/-- Model of an outbound HTTP request with a body, as built by
`Fwder.Forward`. -/
structure OutRequest where
  method : Str
  url : Str
  headers : List (Str × Str)
  body : Str
deriving Repr, DecidableEq

/-- Request construction in `Fwder.Forward`: a POST to the target whose
body is `p.Body` and whose headers copy the five payload fields. -/
def buildRequest (target : Str) (p : Payload) : OutRequest :=
  { method := "POST".data, url := target,
    headers := [("content-type".data, p.contentType),
                ("x-request-id".data, p.xRequestID),
                ("x-github-delivery".data, p.xGithubDelivery),
                ("x-github-event".data, p.xGithubEvent),
                ("x-hub-signature".data, p.xHubSignature)],
    body := p.body }

/-- What `f.client.Do(req)` produces for the one send `Forward` may
attempt: a transport-level error or a response with a status code. -/
inductive SendOutcome where
  | transportError (msg : Str)
  | response (status : Nat)
deriving Repr, DecidableEq

/-- Log lines `Forward` can produce: `skipped` is the
`debugf("Skipping received event...")`, `received` the
`infof("Received event...")`, `sendError` the `infof(err.Error())`,
`badStatus` the `debugf("response code...")`. -/
inductive LogEntry where
  | skipped (ev : SSEvent)
  | received (ev : SSEvent)
  | sendError (msg : Str)
  | badStatus (status : Nat)
deriving Repr, DecidableEq

/-- The observable behaviour of one `Forward` call: the outbound
requests given to `f.client.Do`, and the log lines printed. -/
structure ForwardTrace where
  sent : List OutRequest
  logs : List LogEntry
deriving Repr, DecidableEq

/-- The drop condition at the top of `Fwder.Forward`:
`ev.Name == "ping" || ev.Id == "" || ev.Id == "0"`. -/
def droppedEvent (ev : SSEvent) : Prop :=
  ev.Name = "ping".data ∨ ev.Id = [] ∨ ev.Id = "0".data

instance (ev : SSEvent) : Decidable (droppedEvent ev) := by
  unfold droppedEvent; infer_instance

/-- Model of `Fwder.Forward`.  `decode` stands for the external
`json.Unmarshal` into a `Payload`; a decode failure leaves the
zero-valued payload in place (the error is discarded by the source).
`debug` is the process debug flag gating `debugf`.  The status of a
successful send is only reported when `resp.StatusCode > 299` (and only
at debug verbosity); a transport error is reported unconditionally and
the function returns — it has no error return value, so no outcome is
fatal to the caller. -/
def forward (decode : Str → Option Payload) (debug : Bool) (target : Str)
    (ev : SSEvent) (outcome : SendOutcome) : ForwardTrace :=
  if droppedEvent ev then
    { sent := [], logs := if debug then [.skipped ev] else [] }
  else
    let p := (decode ev.Data).getD Payload.zero
    let req := buildRequest target p
    match outcome with
    | .transportError msg => { sent := [req], logs := [.received ev, .sendError msg] }
    | .response status =>
      { sent := [req],
        logs := [.received ev] ++
          (if 299 < status then (if debug then [.badStatus status] else []) else []) }

/-- The receive loop of `Fwder.Serve`: each event taken from
`sub.Events` is handed to `f.Forward`, whose return is ignored, and the
loop continues with the next event. -/
def fwderServe (decode : Str → Option Payload) (debug : Bool) (target : Str)
    (inputs : List (SSEvent × SendOutcome)) : List ForwardTrace :=
  inputs.map fun p => forward decode debug target p.1 p.2

/-! ## Helper lemmas -/

theorem parseSend_idLine (v : Str) (st : ParserState) :
    parseSend ("id: ".data ++ v) st =
      .ok { st with ev := { st.ev with Id := v } } none := by
  simp [parseSend, idPrefix, eventPrefix, dataPrefix, List.isPrefixOf]

theorem parseSend_eventLine (v : Str) (st : ParserState) :
    parseSend ("event: ".data ++ v) st =
      .ok { st with ev := { st.ev with Name := v } } none := by
  simp [parseSend, idPrefix, eventPrefix, dataPrefix, List.isPrefixOf]

theorem parseSend_dataLine (v : Str) (st : ParserState) :
    parseSend ("data: ".data ++ v) st =
      .ok { st with buf := st.buf ++ v } none := by
  simp [parseSend, idPrefix, eventPrefix, dataPrefix, List.isPrefixOf]

theorem parseSend_blankLine (st : ParserState) :
    parseSend [] st =
      .ok { ev := { st.ev with Data := st.buf }, buf := [] }
        (some { st.ev with Data := st.buf }) := by
  simp [parseSend, idPrefix, eventPrefix, dataPrefix, List.isPrefixOf]

theorem runLines_cons_ok (l : Str) (ls : List Str) (st st2 : ParserState)
    (h : parseSend l st = .ok st2 none) :
    runLines (l :: ls) st = runLines ls st2 := by
  rw [runLines, h]
  cases hr : runLines ls st2 <;> simp [hr]

theorem runLines_dataLines (vs : List Str) (st : ParserState) (rest : List Str) :
    runLines (vs.map (fun v => "data: ".data ++ v) ++ rest) st =
      runLines rest { st with buf := st.buf ++ vs.flatten } := by
  induction vs generalizing st with
  | nil => simp
  | cons v vs ih =>
    rw [List.map_cons, List.cons_append,
      runLines_cons_ok _ _ _ _ (parseSend_dataLine v st), ih]
    rw [show st.buf ++ v ++ vs.flatten = st.buf ++ (v ++ vs.flatten) from
      List.append_assoc st.buf v vs.flatten]
    rfl

theorem parseSend_unrecognized (line : Str) (st : ParserState)
    (hrec : recognizedLine line = false) (hne : line ≠ []) :
    parseSend line st = .err line line.length := by
  unfold recognizedLine at hrec
  simp only [Bool.or_eq_false_iff] at hrec
  obtain ⟨⟨ha, hb⟩, hc⟩ := hrec
  unfold parseSend
  rw [if_neg (by simp [ha]), if_neg (by simp [hb]), if_neg (by simp [hc]),
    if_neg (by simp [List.length_eq_zero, hne])]

/-! ## Claim theorems for the parser -/

/-- C1 — the claim says that after a blank line finalizes a record, the
draft event is reset so that a following record with no `id:` line (and
no `event:` line) yields an event with empty id.  The code violates
this: `ev = &SSEvent{}` in `parseSend` reassigns the local pointer
parameter only, so the draft keeps the previous record's id.  Feeding
`["id: 42", "", "data: x", ""]` makes the second record — which has no
`id:` line — emit an event whose id is `"42"`, not `""`. -/
theorem serve_draft_event_not_reset :
    runLines ["id: 42".data, [], "data: x".data, []] ParserState.init =
      .ok ⟨⟨"42".data, [], "x".data⟩, []⟩
        [⟨"42".data, [], []⟩, ⟨"42".data, [], "x".data⟩] ∧
    ("42".data : Str) ≠ [] := by decide

/-- C3 — data concatenation: a record of N `data:` lines terminated by
a blank line (from any draft with an empty accumulator) emits exactly
one event whose data is the literal concatenation of the N value
substrings in order with no separator; in particular
`["event: push", "data: {\x22a\x22:1}", "data: 23", ""]` yields one
event with data `{\x22a\x22:1}23`. -/
theorem data_concatenation_no_separator :
    (∀ (ev0 : SSEvent) (vs : List Str),
      runLines (vs.map (fun v => "data: ".data ++ v) ++ [[]]) ⟨ev0, []⟩ =
        .ok ⟨⟨ev0.Id, ev0.Name, vs.flatten⟩, []⟩ [⟨ev0.Id, ev0.Name, vs.flatten⟩]) ∧
    runLines ["event: push".data, "data: \x7b\"a\":1\x7d".data, "data: 23".data, []]
        ParserState.init =
      .ok ⟨⟨[], "push".data, "\x7b\"a\":1\x7d23".data⟩, []⟩
        [⟨[], "push".data, "\x7b\"a\":1\x7d23".data⟩] := by
  constructor
  · intro ev0 vs
    rw [runLines_dataLines]
    simp [runLines, parseSend_blankLine]
  · decide

/-- C5 — unrecognized-line failure: `parseSend` returns a parse error
exactly on non-empty lines matching none of the recognized prefixes,
and that error carries the offending line and its length; feeding such
a line to the read loop fails the stream with no event emitted for that
line. -/
theorem parseSend_parse_error_characterization (line l : Str) (n : Nat)
    (st : ParserState) :
    (parseSend line st = .err l n ↔
      line = l ∧ line.length = n ∧ recognizedLine line = false ∧ line ≠ []) ∧
    (recognizedLine line = false → line ≠ [] →
      ∀ rest, runLines (line :: rest) st = .err [] line line.length) := by
  constructor
  · constructor
    · intro h
      unfold parseSend at h
      split_ifs at h with h1 h2 h3 h4 h5 h6 h7
      all_goals
        simp_all [recognizedLine, List.length_eq_zero, Bool.eq_false_iff,
          List.isPrefixOf_iff_prefix]
      exact h.1 ▸ h.2
    · rintro ⟨rfl, rfl, hrec, hne⟩
      exact parseSend_unrecognized line st hrec hne
  · intro h1 h2 rest
    rw [runLines, parseSend_unrecognized line st h1 h2]

/-- Witness for C5 at the unrecognized line `retry: 1000` (length 11):
the stream fails with a parse error carrying the line and its length,
and no event is emitted. -/
theorem parseSend_parse_error_characterization_case :
    runLines ["retry: 1000".data] ParserState.init =
      .err [] "retry: 1000".data 11 :=
  (parseSend_parse_error_characterization "retry: 1000".data [] 0
    ParserState.init).2 (by decide) (by decide) []

/-- C9 — short-prefix panic: on the 3-byte line `id:`, the 6-byte line
`event:` and the 5-byte line `data:`, the slice past the
prefix-and-space position is out of bounds and `parseSend` aborts with
a runtime panic (the `crash` outcome) instead of returning a parse
error: the parser is not total on such lines. -/
theorem parseSend_short_prefix_line_crash (st : ParserState) :
    parseSend "id:".data st = .crash ∧
    parseSend "event:".data st = .crash ∧
    parseSend "data:".data st = .crash := by
  refine ⟨?_, ?_, ?_⟩ <;>
    simp [parseSend, idPrefix, eventPrefix, dataPrefix, List.isPrefixOf]

/-- C10 — the separator byte after the colon is never validated: for a
line consisting of a recognized prefix immediately followed by a
non-empty value (no space), the byte right after the colon is silently
skipped, so the stored value drops the value's first byte; in
particular `id:42` sets the draft id to `2`. -/
theorem parseSend_skips_byte_after_colon (v : Str) (st : ParserState) :
    (v ≠ [] →
      parseSend (idPrefix ++ v) st =
        .ok { st with ev := { st.ev with Id := v.drop 1 } } none ∧
      parseSend (eventPrefix ++ v) st =
        .ok { st with ev := { st.ev with Name := v.drop 1 } } none ∧
      parseSend (dataPrefix ++ v) st =
        .ok { st with buf := st.buf ++ v.drop 1 } none) ∧
    parseSend "id:42".data ParserState.init =
      .ok ⟨⟨"2".data, [], []⟩, []⟩ none := by
  constructor
  · intro h
    obtain ⟨c, cs, rfl⟩ := List.exists_cons_of_ne_nil h
    refine ⟨?_, ?_, ?_⟩ <;>
      simp [parseSend, idPrefix, eventPrefix, dataPrefix, List.isPrefixOf]
  · decide

/-- Witness for C10 at the spaceless line `id:42`: the draft id becomes
`2`, dropping the first byte of the value. -/
theorem parseSend_skips_byte_after_colon_case :
    ("42".data : Str) ≠ [] ∧
    parseSend (idPrefix ++ "42".data) ParserState.init =
      .ok { ParserState.init with
              ev := { ParserState.init.ev with Id := "42".data.drop 1 } } none :=
  ⟨by decide, ((parseSend_skips_byte_after_colon "42".data
      ParserState.init).1 (by decide)).1⟩

/-! ## Claim theorems for Subscription.Serve -/

/-- C2 — the claim says the connection handle is released on every exit
path of `Subscription.Serve` (normal EOF, parse error, network/read
error, explicit stop), exactly once.  The code violates this: `Serve`
contains no `Close()` on the response body at all — the only release in
the source is the one inside `Subscription.Stop` — so on the
parse-error exit and on the EOF exit the acquired body is never
released.  Both runs below end with the body acquired and no release
performed. -/
theorem serve_body_not_released_on_error_exits :
    subscriptionServe
        (some ⟨200, "text/event-stream".data, ["retry: 1000".data], false⟩)
        none =
      { exit := .parseError "retry: 1000".data 11, events := []
        bodyActions := [.acquire] } ∧
    subscriptionServe (some ⟨200, "text/event-stream".data, [], false⟩) none =
      { exit := .eof, events := [], bodyActions := [.acquire] } ∧
    BodyAction.release ∉ [BodyAction.acquire] := by decide

/-- C6 — subscription preconditions: the GET request carries the header
`Accept: text/event-stream`; a response status other than 200 fails the
run with an HTTP status error carrying the status, and (with status
200) a content type other than `text/event-stream` fails it with a
content-type error; in both failure cases no event is emitted. -/
theorem serve_preconditions (url : Str) (resp : SourceResponse)
    (stopAt : Option Nat) :
    (serveRequest url).method = "GET".data ∧
    (serveRequest url).headers = [("Accept".data, "text/event-stream".data)] ∧
    (resp.status ≠ 200 →
      (subscriptionServe (some resp) stopAt).exit =
          .httpStatusError resp.status ∧
      (subscriptionServe (some resp) stopAt).events = []) ∧
    (resp.status = 200 → resp.contentType ≠ "text/event-stream".data →
      (subscriptionServe (some resp) stopAt).exit =
          .contentTypeError resp.contentType ∧
      (subscriptionServe (some resp) stopAt).events = []) := by
  refine ⟨rfl, rfl, ?_, ?_⟩
  · intro h
    simp [subscriptionServe, h]
  · intro h1 h2
    simp [subscriptionServe, h1, h2]

/-- Witness for C6: a 404 response fails with the status error and no
events; a 200 response of content type `text/html` fails with the
content-type error and no events. -/
theorem serve_preconditions_case :
    (subscriptionServe (some ⟨404, "text/html".data, [], false⟩) none).exit =
      .httpStatusError 404 ∧
    (subscriptionServe (some ⟨404, "text/html".data, [], false⟩) none).events
      = [] ∧
    (subscriptionServe (some ⟨200, "text/html".data, [], false⟩) none).exit =
      .contentTypeError "text/html".data ∧
    (subscriptionServe (some ⟨200, "text/html".data, [], false⟩) none).events
      = [] := by
  have h1 := (serve_preconditions [] ⟨404, "text/html".data, [], false⟩
    none).2.2.1 (by decide)
  have h2 := (serve_preconditions [] ⟨200, "text/html".data, [], false⟩
    none).2.2.2 (by decide) (by decide)
  exact ⟨h1.1, h1.2, h2.1, h2.2⟩

/-! ## Claim theorems for Fwder -/

/-- C4 — drop rule: `Forward` builds and sends no outbound request
exactly when the event's name is `ping` or its id is empty or the
literal `0`; every other event is forwarded as one POST built from the
decoded payload. -/
theorem forward_drop_rule (decode : Str → Option Payload) (debug : Bool)
    (target : Str) (ev : SSEvent) (outcome : SendOutcome) :
    (droppedEvent ev → (forward decode debug target ev outcome).sent = []) ∧
    (¬ droppedEvent ev →
      (forward decode debug target ev outcome).sent =
        [buildRequest target ((decode ev.Data).getD Payload.zero)]) := by
  constructor
  · intro h
    simp [forward, h]
  · intro h
    cases outcome <;> simp [forward, h]

/-- Witness for C4: a ping event is dropped (no request), a plain push
event with a non-sentinel id is forwarded as one request. -/
theorem forward_drop_rule_case :
    (forward (fun _ => none) false [] ⟨"7".data, "ping".data, []⟩
        (.response 200)).sent = [] ∧
    (forward (fun _ => none) false [] ⟨"7".data, "push".data, []⟩
        (.response 200)).sent =
      [buildRequest []
        (((fun (_ : Str) => (none : Option Payload)) ([] : Str)).getD
          Payload.zero)] :=
  ⟨(forward_drop_rule (fun _ => none) false [] ⟨"7".data, "ping".data, []⟩
      (.response 200)).1 (by decide),
   (forward_drop_rule (fun _ => none) false [] ⟨"7".data, "push".data, []⟩
      (.response 200)).2 (by decide)⟩

/-- C7 counterexample — the claim says every response status outside
200–299 is reported.  Status 150 is outside 200–299, yet on an accepted
event `Forward` logs only the receipt line even with debug on: the code
reports a status only when it is strictly above 299. -/
theorem forward_low_status_unreported :
    (forward (fun _ => none) true [] ⟨"7".data, "push".data, []⟩
        (.response 150)).logs =
      [.received ⟨"7".data, "push".data, []⟩] ∧
    150 < 200 ∧
    LogEntry.badStatus 150 ∉
      (forward (fun _ => none) true [] ⟨"7".data, "push".data, []⟩
        (.response 150)).logs := by decide

/-- C7 amended — forwarder failure isolation: for every accepted event,
a transport-level send failure is reported and never fatal to the
forwarder (every event around it is still processed, the loop being a
per-event map), and a response status above 299 is reported at debug
verbosity but not retried and not fatal; the event is sent exactly
once, never re-delivered. -/
theorem forward_failure_isolation (decode : Str → Option Payload)
    (debug : Bool) (target : Str) (ev : SSEvent) (msg : Str) (status : Nat)
    (pre post : List (SSEvent × SendOutcome)) :
    (¬ droppedEvent ev →
      (forward decode debug target ev (.transportError msg)).logs =
        [.received ev, .sendError msg] ∧
      (forward decode debug target ev (.transportError msg)).sent.length
        = 1) ∧
    (¬ droppedEvent ev → 299 < status →
      (forward decode debug target ev (.response status)).logs =
        .received ev :: (if debug then [.badStatus status] else []) ∧
      (forward decode debug target ev (.response status)).sent.length = 1) ∧
    fwderServe decode debug target (pre ++ post) =
      fwderServe decode debug target pre ++
        fwderServe decode debug target post := by
  refine ⟨?_, ?_, ?_⟩
  · intro h
    simp [forward, h]
  · intro h hs
    simp [forward, h, hs]
  · simp [fwderServe]

/-- Witness for C7 at a push event with id 7: a transport error is
logged and the send happened once; a 500 response is logged at debug
verbosity. -/
theorem forward_failure_isolation_case :
    ((forward (fun _ => none) true [] ⟨"7".data, "push".data, []⟩
        (.transportError "refused".data)).logs =
      [.received ⟨"7".data, "push".data, []⟩, .sendError "refused".data]) ∧
    ((forward (fun _ => none) true [] ⟨"7".data, "push".data, []⟩
        (.response 500)).logs =
      .received ⟨"7".data, "push".data, []⟩ ::
        (if true then [.badStatus 500] else [])) :=
  ⟨((forward_failure_isolation (fun _ => none) true [] ⟨"7".data, "push".data, []⟩
      "refused".data 500 [] []).1 (by decide)).1,
   ((forward_failure_isolation (fun _ => none) true [] ⟨"7".data, "push".data, []⟩
      "refused".data 500 [] []).2.1 (by decide) (by decide)).1⟩

/-- C8 — best-effort payload decode: for every accepted event whose
data does not decode as a payload, forwarding is not aborted — the
outbound POST is still built and sent, carrying the zero-valued
payload: all five copied header values are empty strings and the body
is empty. -/
theorem forward_decode_failure_zero_payload (decode : Str → Option Payload)
    (debug : Bool) (target : Str) (ev : SSEvent) (outcome : SendOutcome) :
    ¬ droppedEvent ev → decode ev.Data = none →
    (forward decode debug target ev outcome).sent =
      [{ method := "POST".data, url := target,
         headers := [("content-type".data, []), ("x-request-id".data, []),
                     ("x-github-delivery".data, []),
                     ("x-github-event".data, []),
                     ("x-hub-signature".data, [])],
         body := [] }] := by
  intro h hd
  cases outcome <;> simp [forward, h, hd, buildRequest, Payload.zero]

/-- Witness for C8: a push event whose data decodes as nothing is still
forwarded as a POST with empty header values and empty body. -/
theorem forward_decode_failure_zero_payload_case :
    (forward (fun _ => none) false [] ⟨"7".data, "push".data, "notjson".data⟩
        (.response 200)).sent =
      [{ method := "POST".data, url := [],
         headers := [("content-type".data, []), ("x-request-id".data, []),
                     ("x-github-delivery".data, []),
                     ("x-github-event".data, []),
                     ("x-hub-signature".data, [])],
         body := [] }] :=
  forward_decode_failure_zero_payload (fun _ => none) false []
    ⟨"7".data, "push".data, "notjson".data⟩ (.response 200) (by decide) rfl
